import Mathlib

set_option maxHeartbeats 1000000

/-!
Verification of the Mainfreight tracking reconciliation job
(`src/mainfreight.py`).  The job is a single linear batch pipeline:
authenticate against the ERP, search candidate pickings, and for each
candidate resolve routing metadata through a three-hop relational chain,
call the Mainfreight tracking endpoint, and conditionally write a transfer
state, a shipment record and a link back into the ERP, logging exactly one
structured entry per outcome.

The embedding is shallow: Python/JSON wire values are the inductive type
`PyVal` with Python truthiness; every remote call is an oracle supplied by
an `Env` record; the pipeline body is translated statement by statement
from `main`, and the JSON-processing tail of `mf_get_tracking` is
`mf_extract`.  A Python exception escaping a modeled expression is an
`Except.error` carrying a stand-in for the exception text (the pipeline
only ever interpolates that text into log messages).
-/

/-- Python/JSON values as delivered by the ERP XML-RPC layer and by the
parsed tracking-provider JSON body: None, booleans, integers, strings,
lists, and string-keyed dictionaries. -/
inductive PyVal where
  | vnone
  | vbool (b : Bool)
  | vint (n : Int)
  | vstr (s : String)
  | vlist (xs : List PyVal)
  | vdict (kvs : List (String × PyVal))

/-- Python truthiness (`bool(x)`), the semantics of the source's
`if not x:` tests and `x or y` expressions. -/
def truthy : PyVal → Bool
  | .vnone => false
  | .vbool b => b
  | .vint n => n != 0
  | .vstr s => !s.isEmpty
  | .vlist xs => !xs.isEmpty
  | .vdict kvs => !kvs.isEmpty

/-- Python `x or y`: the left operand when truthy, otherwise the right. -/
def pyOr (a b : PyVal) : PyVal :=
  if truthy a then a else b

mutual

/-- Python repr(), simplified: strings are wrapped in single quotes without
escape handling (no message inspected by a claim contains a quoted
string). -/
def pyRepr : PyVal → String
  | .vnone => "None"
  | .vbool b => if b then "True" else "False"
  | .vint n => toString n
  | .vstr s => "'" ++ s ++ "'"
  | .vlist xs => "[" ++ pyReprL xs ++ "]"
  | .vdict kvs => "\x7b" ++ pyReprD kvs ++ "\x7d"

/-- Comma-separated reprs of a list's elements. -/
def pyReprL : List PyVal → String
  | [] => ""
  | [x] => pyRepr x
  | x :: xs => pyRepr x ++ ", " ++ pyReprL xs

/-- Comma-separated reprs of a dict's entries. -/
def pyReprD : List (String × PyVal) → String
  | [] => ""
  | [(k, v)] => "'" ++ k ++ "': " ++ pyRepr v
  | (k, v) :: kvs => "'" ++ k ++ "': " ++ pyRepr v ++ ", " ++ pyReprD kvs

end

/-- Python str(), as used by f-string interpolation in log messages. -/
def pyStr : PyVal → String
  | .vstr s => s
  | v => pyRepr v

/-- Lookup in a Python dict with a None default, i.e. `d.get(k)` on an
actual dict. -/
def dictGetD (kvs : List (String × PyVal)) (k : String) : PyVal :=
  (kvs.lookup k).getD .vnone

/-- `v.get(k)`: returns the entry (or None) when `v` is a dict and raises
AttributeError otherwise, mirroring how `mf_get_tracking` calls `.get` on
values taken from the JSON body. -/
def pyGet (v : PyVal) (k : String) : Except String PyVal :=
  match v with
  | .vdict kvs => .ok (dictGetD kvs k)
  | _ => .error ("AttributeError: no attribute get (" ++ k ++ ")")

/-- A naive datetime as produced by `datetime.fromisoformat` on the strings
this job receives. -/
structure PyDateTime where
  year : Nat
  month : Nat
  day : Nat
  hour : Nat := 0
  minute : Nat := 0
  second : Nat := 0
  deriving DecidableEq, Repr

/-- Parse exactly two decimal digits. -/
def digit2 : List Char → Option (Nat × List Char)
  | a :: b :: rest =>
    if a.isDigit && b.isDigit then
      some ((a.toNat - 48) * 10 + (b.toNat - 48), rest)
    else Option.none
  | _ => Option.none

/-- Parse exactly four decimal digits. -/
def digit4 : List Char → Option (Nat × List Char)
  | a :: b :: c :: d :: rest =>
    if a.isDigit && b.isDigit && c.isDigit && d.isDigit then
      some ((((a.toNat - 48) * 10 + (b.toNat - 48)) * 10 + (c.toNat - 48)) * 10
        + (d.toNat - 48), rest)
    else Option.none
  | _ => Option.none

/-- Gregorian leap-year rule, as in `datetime`. -/
def isLeap (y : Nat) : Bool :=
  (y % 4 == 0 && y % 100 != 0) || y % 400 == 0

/-- Days in a month, as validated by `datetime`. -/
def daysInMonth (y m : Nat) : Nat :=
  if m = 2 then (if isLeap y then 29 else 28)
  else if m = 4 ∨ m = 6 ∨ m = 9 ∨ m = 11 then 30
  else 31

/-- Parse the time part `HH[:MM[:SS[.ffffff]]]` of an ISO string; the
fractional part is validated but discarded (strftime with `%S` ignores
microseconds). -/
def parseHMS (cs : List Char) : Option (Nat × Nat × Nat) := do
  let (h, r1) ← digit2 cs
  match r1 with
  | [] => some (h, 0, 0)
  | ':' :: r2 => do
    let (mi, r3) ← digit2 r2
    match r3 with
    | [] => some (h, mi, 0)
    | ':' :: r4 => do
      let (se, r5) ← digit2 r4
      match r5 with
      | [] => some (h, mi, se)
      | '.' :: fr =>
        if fr.length != 0 && fr.length ≤ 6 && fr.all Char.isDigit then
          some (h, mi, se)
        else Option.none
      | _ => Option.none
    | _ => Option.none
  | _ => Option.none

/-- `datetime.fromisoformat`, restricted to the shapes this job can
receive: `YYYY-MM-DD`, optionally followed by a single separator character
and `HH[:MM[:SS[.ffffff]]]`, with calendar validation.  Timezone-offset
suffixes are outside the modeled subset and treated as unparsable. -/
def pyFromIso (s : String) : Option PyDateTime := do
  let (y, r1) ← digit4 s.toList
  match r1 with
  | '-' :: r2 => do
    let (mo, r3) ← digit2 r2
    match r3 with
    | '-' :: r4 => do
      let (d, r5) ← digit2 r4
      let tm ← match r5 with
        | [] => some (0, 0, 0)
        | _sep :: r6 => parseHMS r6
      if 1 ≤ mo ∧ mo ≤ 12 ∧ 1 ≤ d ∧ d ≤ daysInMonth y mo ∧
          tm.1 ≤ 23 ∧ tm.2.1 ≤ 59 ∧ tm.2.2 ≤ 59 then
        some ⟨y, mo, d, tm.1, tm.2.1, tm.2.2⟩
      else Option.none
    | _ => Option.none
  | _ => Option.none

/-- Zero-pad a natural number to two digits. -/
def pad2 (n : Nat) : String :=
  if n < 10 then "0" ++ toString n else toString n

/-- Zero-pad a natural number to four digits. -/
def pad4 (n : Nat) : String :=
  if n < 10 then "000" ++ toString n
  else if n < 100 then "00" ++ toString n
  else if n < 1000 then "0" ++ toString n
  else toString n

/-- `strftime("%Y-%m-%d %H:%M:%S")`. -/
def pyStrftime (d : PyDateTime) : String :=
  pad4 d.year ++ "-" ++ pad2 d.month ++ "-" ++ pad2 d.day ++ " " ++
    pad2 d.hour ++ ":" ++ pad2 d.minute ++ ":" ++ pad2 d.second

/-- The normalized tracking result built by `mf_get_tracking`: the three
carrier fields keep their raw JSON values (None when unset), and the
shipped date is the reformatted string when set. -/
structure MfResult where
  tracking_number : PyVal := .vnone
  tracking_url : PyVal := .vnone
  shipping_method : PyVal := .vnone
  date_shipped : Option String := Option.none

/-- The carrier-fields part of `mf_get_tracking`:
`cr = item.get("carrierReferences") or []`, and when `cr` is a non-empty
list, read `trackingUrl`, `carrierName` and `reference` from
`cr[0] or {}`.  Returns `(tracking_number, tracking_url, shipping_method)`;
an `.error` is a raised AttributeError. -/
def extractCarrier (item : PyVal) : Except String (PyVal × PyVal × PyVal) := do
  let crRaw ← pyGet item "carrierReferences"
  match pyOr crRaw (.vlist []) with
  | .vlist (c0 :: _) =>
    let c := pyOr c0 (.vdict [])
    let tu ← pyGet c "trackingUrl"
    let sm ← pyGet c "carrierName"
    let tn ← pyGet c "reference"
    .ok (tn, tu, sm)
  | _ => .ok (.vnone, .vnone, .vnone)

/-- The shipped-date part of `mf_get_tracking`:
`api_events = item.get("events") or []`; when it is a non-empty list, read
`eventDateTime` from its first entry and, when truthy, parse it with
`fromisoformat` and reformat with strftime.  An `.error` is a raised
exception: AttributeError when the first event is not a dict, TypeError
when `eventDateTime` is a truthy non-string, ValueError when it is an
unparsable string — the source wraps none of these in a try/except. -/
def extractShipDate (item : PyVal) : Except String (Option String) := do
  let evRaw ← pyGet item "events"
  match pyOr evRaw (.vlist []) with
  | .vlist (e0 :: _) => do
    let ds ← pyGet e0 "eventDateTime"
    if truthy ds then
      match ds with
      | .vstr s =>
        match pyFromIso s with
        | some dt => .ok (some (pyStrftime dt))
        | Option.none => .error "ValueError: Invalid isoformat string"
      | _ => .error "TypeError: fromisoformat: argument must be str"
    else .ok Option.none
  | _ => .ok Option.none

/-- The JSON-processing tail of `mf_get_tracking`, applied to the decoded
response body: `if not isinstance(data, list) or not data:` return the
all-unset result, else derive all fields from `data[0]`. -/
def mf_extract (data : PyVal) : Except String MfResult :=
  match data with
  | .vlist (item :: _) => do
    let cf ← extractCarrier item
    let ds ← extractShipDate item
    .ok ⟨cf.1, cf.2.1, cf.2.2, ds⟩
  | _ => .ok ⟨.vnone, .vnone, .vnone, Option.none⟩

/-- Outcome of the HTTP GET inside `mf_get_tracking`, as seen from the
`try` in `main`: an HTTPError raised by `raise_for_status` (carrying the
response status code), any other exception from the request or the JSON
decoding, or a 2xx response with decoded body. -/
inductive MfCall where
  | httpError (status : Int) (emsg : String)
  | exc (emsg : String)
  | ok (body : PyVal)

/-- What the call site in `main` observes from `mf_get_tracking`: the
HTTPError branch, the generic exception branch (transport, JSON decoding,
or an exception raised while extracting fields from the body), or the
normalized result. -/
inductive MfOutcome where
  | httpErr (status : Int) (emsg : String)
  | excErr (emsg : String)
  | ok (res : MfResult)

/-- `mf_get_tracking` as observed by `main`: compose the HTTP outcome with
the body extraction. -/
def mf_get_tracking (call : MfCall) : MfOutcome :=
  match call with
  | .httpError st e => .httpErr st e
  | .exc e => .excErr e
  | .ok body =>
    match mf_extract body with
    | .error e => .excErr e
    | .ok res => .ok res

example : pyFromIso "2025-08-12T14:23:00" = some ⟨2025, 8, 12, 14, 23, 0⟩ := by decide
example : (pyFromIso "2025-08-12T14:23:00").map pyStrftime = some "2025-08-12 14:23:00" := by decide
example : pyFromIso "not-a-date" = Option.none := by decide
example : pyFromIso "2025-02-30" = Option.none := by decide
example : pyFromIso "2024-02-29" = some ⟨2024, 2, 29, 0, 0, 0⟩ := by decide

/-- Python `==` on dictionary keys, written by structural recursion (the
derived instance is unavailable for this nested inductive).  It deviates
from CPython only in not identifying `True` with `1` as a key, which no
aggregation result in this development depends on. -/
def pyBeq : PyVal → PyVal → Bool
  | .vnone, .vnone => true
  | .vbool a, .vbool b => a == b
  | .vint a, .vint b => a == b
  | .vstr a, .vstr b => a == b
  | .vlist [], .vlist [] => true
  | .vlist (x :: xs), .vlist (y :: ys) => pyBeq x y && pyBeq (.vlist xs) (.vlist ys)
  | .vdict [], .vdict [] => true
  | .vdict ((k1, v1) :: xs), .vdict ((k2, v2) :: ys) =>
    k1 == k2 && pyBeq v1 v2 && pyBeq (.vdict xs) (.vdict ys)
  | _, _ => false

/-- One candidate record as returned by the `stock.picking` read with
fields name, origin, sale_id, tpl_transfer_ids.  The relational fields
keep their raw wire shapes; `tpl_transfer_ids` is a one2many field, which
the RPC layer always delivers as a list of record ids. -/
structure Picking where
  id : Int
  name : PyVal
  origin : PyVal
  sale_id : PyVal
  tpl_transfer_ids : List Int

/-- The `stock.tpl.queue` read (fields tpl_provider, state,
milestone_state; only tpl_provider is consumed). -/
structure QueueRec where
  tpl_provider : PyVal

/-- The `stock.tpl.provider` read (field default_tpl_warehouse_id). -/
structure ProviderRec where
  default_tpl_warehouse_id : PyVal

/-- The `stock.tpl.warehouse` read (fields region_code, service_code). -/
structure WarehouseRec where
  region_code : PyVal
  service_code : PyVal

/-- One `stock.move.line` from the search_read: `product_id` keeps its raw
wire shape; `qty_done` is a float, modeled as an exact rational (the only
facts used about it are sign facts, which IEEE addition of positive values
also preserves). -/
structure MoveLine where
  product_id : PyVal
  qty_done : Rat

/-- One structured run-log entry as written by `log_all` (the durable
relational sink; the optional spreadsheet sink fans out the same entries
best-effort and is not modeled).  Fields not passed at a call site keep
their None defaults. -/
structure LogEntry where
  picking_id : Option Int := Option.none
  reference : Option PyVal := Option.none
  region : Option String := Option.none
  service_type : Option String := Option.none
  status : String := ""
  message : String := ""
  tracking_number : Option PyVal := Option.none
  tracking_url : Option PyVal := Option.none
  shipping_method : Option PyVal := Option.none

/-- The values the pipeline passes to `tpl.shipment create`. -/
structure ShipmentVals where
  name : PyVal
  tracking_url : PyVal
  tpl_code : PyVal
  ship_date : Option String
  shipment_line_ids : List (PyVal × Rat)

/-- An ERP write performed by the pipeline, recorded when the
corresponding remote call returns successfully. -/
inductive WriteOp where
  | queueDone (transferId : Int)
  | createShipment (vals : ShipmentVals)
  | linkShipment (pickingId shipmentId : Int)

/-- Result of processing: accumulated log entries and ERP writes, plus
whether an unhandled Python exception escaped (which aborts the loop and
the process). -/
structure StepRes where
  logs : List LogEntry
  writes : List WriteOp
  crashed : Bool := false

/-- Oracle for every remote call the job makes.  Read/write outcomes carry
the exception text on failure (the code interpolates it into messages);
indexing `[0]` into an empty read result happens inside the same `try` and
is therefore also an `.error`. -/
structure Env where
  authenticate : Except String PyVal
  searchPickings : List (String × String × PyVal) → Nat → Except String (List Int)
  readPickings : List Int → Except String (List Picking)
  readQueue : Int → Except String QueueRec
  readProvider : PyVal → Except String ProviderRec
  readWarehouse : PyVal → Except String WarehouseRec
  mf : String → String → PyVal → MfCall
  writeQueue : Int → Except String Unit
  readMoveLines : Int → Except String (List MoveLine)
  createShipment : ShipmentVals → Except String Int
  linkShipment : Int → Int → Except String Unit

/-- The sale label: `p["sale_id"][1]` when `sale_id` is a two-element
list, else the initial None. -/
def saleLabel (p : Picking) : PyVal :=
  match p.sale_id with
  | .vlist [_, l] => l
  | _ => .vnone

/-- `reference = sale_label or p.get("origin") or p.get("name")`. -/
def pickingReference (p : Picking) : PyVal :=
  pyOr (saleLabel p) (pyOr p.origin p.name)

/-- The characters `str.strip()` removes: Python ASCII whitespace (the
records here never carry the rarer unicode space characters). -/
def pyIsSpace (c : Char) : Bool :=
  c = ' ' ∨ c = '\t' ∨ c = '\n' ∨ c = '\r' ∨ c = '\x0b' ∨ c = '\x0c'

/-- Python `s.strip()`: drop leading and trailing whitespace. -/
def pyStrip (s : String) : String :=
  ⟨((s.toList.dropWhile pyIsSpace).reverse.dropWhile pyIsSpace).reverse⟩

/-- `(v or "").strip()`: the empty string when `v` is falsy, the stripped
string when it is a string, and None standing for the AttributeError a
truthy non-string would raise. -/
def stripOr (v : PyVal) : Option String :=
  if truthy v then
    match v with
    | .vstr s => some (pyStrip s)
    | _ => Option.none
  else some ""

/-- `isinstance(x, list) and len(x) == 2`, the well-formedness guard the
source applies to many2one (id, label) pairs. -/
def isPair : PyVal → Bool
  | .vlist [_, _] => true
  | _ => false

/-- `x[0]` on a value the guard just proved to be a two-element list (the
accesses `provider[0]` and `wh[0]`). -/
def pyFst : PyVal → PyVal
  | .vlist (x :: _) => x
  | _ => .vnone

/-- `prod[0] if isinstance(prod, list) else (prod if isinstance(prod, int)
else None)`: None of the outer Option stands for the IndexError raised on
an empty list; booleans are ints in Python. -/
def pidOf : PyVal → Option PyVal
  | .vlist (x :: _) => some x
  | .vlist [] => Option.none
  | .vint n => some (.vint n)
  | .vbool b => some (.vbool b)
  | _ => some .vnone

/-- `qty_by_product[pid] += q` on a defaultdict(float), preserving
insertion order as Python dicts do. -/
def addQty (acc : List (PyVal × Rat)) (key : PyVal) (q : Rat) : List (PyVal × Rat) :=
  match acc with
  | [] => [(key, q)]
  | (k, v) :: rest => if pyBeq k key then (k, v + q) :: rest else (k, v) :: addQty rest key q

/-- The aggregation loop over move lines: for each line compute `pid` and,
when truthy, add `float(ml.get("qty_done") or 0.0)` (which is just the
quantity, since `or` maps 0.0 to 0.0) under that key.  None stands for the
uncaught IndexError from `pidOf`. -/
def aggLoop (acc : List (PyVal × Rat)) : List MoveLine → Option (List (PyVal × Rat))
  | [] => some acc
  | ml :: rest =>
    match pidOf ml.product_id with
    | Option.none => Option.none
    | some pid => aggLoop (if truthy pid then addQty acc pid ml.qty_done else acc) rest

/-- `qty_by_product` built from the move lines. -/
def aggregateLines (mls : List MoveLine) : Option (List (PyVal × Rat)) :=
  aggLoop [] mls

/-- Steps 3) onward of the per-candidate body, entered after the tracking
guard passed: mark the queue done, read and aggregate move lines, and
create and link the shipment, each failure terminating the candidate with
one error or skip entry. -/
def afterTracking (env : Env) (pid : Int) (reference : PyVal)
    (region service_type : String) (t : Int) (res : MfResult) : StepRes :=
  match env.writeQueue t with
  | .error e =>
    ⟨[{ picking_id := some pid, reference := some reference, region := some region,
        service_type := some service_type, status := "error",
        message := "Write tpl.queue error: " ++ e }], [], false⟩
  | .ok _ =>
    match env.readMoveLines pid with
    | .error e =>
      ⟨[{ picking_id := some pid, reference := some reference, region := some region,
          service_type := some service_type, status := "error",
          message := "Read move lines error: " ++ e }], [.queueDone t], false⟩
    | .ok mls =>
      match aggregateLines mls with
      | Option.none => ⟨[], [.queueDone t], true⟩
      | some agg =>
        if agg.isEmpty then
          ⟨[{ picking_id := some pid, reference := some reference, region := some region,
              service_type := some service_type, status := "skip",
              message := "No qty_done > 0 — skip shipment creation." }], [.queueDone t], false⟩
        else
          let cmds := agg.filter (fun kv => Rat.blt 0 kv.2)
          let vals : ShipmentVals :=
            ⟨res.tracking_number, res.tracking_url, pyOr res.shipping_method (.vstr ""),
              res.date_shipped, cmds⟩
          match env.createShipment vals with
          | .error e =>
            ⟨[{ picking_id := some pid, reference := some reference, region := some region,
                service_type := some service_type, status := "error",
                message := "Create/link tpl.shipment error: " ++ e,
                tracking_number := some res.tracking_number,
                tracking_url := some res.tracking_url,
                shipping_method := some res.shipping_method }], [.queueDone t], false⟩
          | .ok sid =>
            match env.linkShipment pid sid with
            | .error e =>
              ⟨[{ picking_id := some pid, reference := some reference, region := some region,
                  service_type := some service_type, status := "error",
                  message := "Create/link tpl.shipment error: " ++ e,
                  tracking_number := some res.tracking_number,
                  tracking_url := some res.tracking_url,
                  shipping_method := some res.shipping_method }],
                [.queueDone t, .createShipment vals], false⟩
            | .ok _ =>
              ⟨[{ picking_id := some pid, reference := some reference, region := some region,
                  service_type := some service_type, status := "ok",
                  message := "linked shipment with " ++ toString cmds.length ++ " lines",
                  tracking_number := some res.tracking_number,
                  tracking_url := some res.tracking_url,
                  shipping_method := some res.shipping_method }],
                [.queueDone t, .createShipment vals, .linkShipment pid sid], false⟩

/-- Step 2) of the per-candidate body: call Mainfreight and dispatch on
the three observable outcomes; an unset or empty tracking_url or
tracking_number is classified as an error, not a skip. -/
def trackingStage (env : Env) (pid : Int) (reference : PyVal)
    (region service_type : String) (t : Int) : StepRes :=
  match mf_get_tracking (env.mf region service_type reference) with
  | .httpErr st e =>
    ⟨[{ picking_id := some pid, reference := some reference, region := some region,
        service_type := some service_type, status := "error",
        message := "Mainfreight HTTP " ++ toString st ++ ": " ++ e }], [], false⟩
  | .excErr e =>
    ⟨[{ picking_id := some pid, reference := some reference, region := some region,
        service_type := some service_type, status := "error",
        message := "Mainfreight error: " ++ e }], [], false⟩
  | .ok res =>
    if !truthy res.tracking_url || !truthy res.tracking_number then
      ⟨[{ picking_id := some pid, reference := some reference, region := some region,
          service_type := some service_type, status := "error",
          message := "No tracking info for ref '" ++ pyStr reference ++ "' (region=" ++
            region ++ ", service=" ++ service_type ++ ")." }], [], false⟩
    else afterTracking env pid reference region service_type t res

/-- The whole per-candidate loop body of `main`, translated branch by
branch: reference computation and skip, transfer-id skip, the three-hop
routing chain with its skip/error split, then the tracking stage. -/
def processPicking (env : Env) (p : Picking) : StepRes :=
  let pid := p.id
  let reference := pickingReference p
  if !truthy reference then
    ⟨[{ picking_id := some pid, status := "skip",
        message := "Skip: no reference (sale/origin/name)." }], [], false⟩
  else
    -- transfer_id = first(p.get("tpl_transfer_ids") or []); `if not transfer_id`
    -- is falsy exactly for a missing first element or a zero id.
    let t := (p.tpl_transfer_ids.head?).getD 0
    if t = 0 then
      ⟨[{ picking_id := some pid, reference := some reference, status := "skip",
          message := "Skip: no tpl_transfer_ids." }], [], false⟩
    else
      match env.readQueue t with
      | .error e =>
        ⟨[{ picking_id := some pid, reference := some reference, status := "error",
            message := "Read tpl.queue error: " ++ e }], [], false⟩
      | .ok q =>
        -- if not (isinstance(provider, list) and len(provider) == 2): skip
        if !isPair q.tpl_provider then
          ⟨[{ picking_id := some pid, reference := some reference, status := "skip",
              message := "Skip: missing tpl_provider on queue " ++ toString t ++ "." }],
            [], false⟩
        else
          let pvid := pyFst q.tpl_provider
          match env.readProvider pvid with
          | .error e =>
            ⟨[{ picking_id := some pid, reference := some reference, status := "error",
                message := "Read tpl.provider error: " ++ e }], [], false⟩
          | .ok pr =>
            if !isPair pr.default_tpl_warehouse_id then
              ⟨[{ picking_id := some pid, reference := some reference, status := "skip",
                  message := "Skip: missing default_tpl_warehouse_id on provider " ++
                    pyStr pvid ++ "." }], [], false⟩
            else
              let wid := pyFst pr.default_tpl_warehouse_id
              match env.readWarehouse wid with
              | .error e =>
                ⟨[{ picking_id := some pid, reference := some reference, status := "error",
                    message := "Read tpl.warehouse error: " ++ e }], [], false⟩
              | .ok w =>
                match stripOr w.region_code, stripOr w.service_code with
                | some region, some service_type =>
                  if region = "" || service_type = "" then
                    ⟨[{ picking_id := some pid, reference := some reference, status := "skip",
                        message := "Skip: missing region/service (warehouse " ++
                          pyStr wid ++ ")." }], [], false⟩
                  else trackingStage env pid reference region service_type t
                | _, _ => ⟨[], [], true⟩

/-- The `for p in pickings` loop: candidates are processed independently
and sequentially; an unhandled exception aborts the remaining loop. -/
def runCandidates (env : Env) : List Picking → StepRes
  | [] => ⟨[], [], false⟩
  | p :: ps =>
    let r := processPicking env p
    if r.crashed then r
    else
      let rest := runCandidates env ps
      ⟨r.logs ++ rest.logs, r.writes ++ rest.writes, rest.crashed⟩

/-- The literal candidate-selection domain passed to `stock.picking
search`. -/
def mainDomain (companyIds : List Int) : List (String × String × PyVal) :=
  [("tpl_transfer_ids.milestone_state", "=", .vstr "Complete"),
   ("tpl_transfer_ids.state", "=", .vstr "sent"),
   ("tpl_shipment_ids", "=", .vbool false),
   ("company_id", "in", .vlist (companyIds.map .vint))]

/-- Whole-run result: all durable log entries, all ERP writes, and the
process exit code (sys.exit(1) on run-fatal failures, 1 on an uncaught
exception escaping the loop, 0 otherwise). -/
structure RunResult where
  logs : List LogEntry
  writes : List WriteOp
  exitCode : Nat

/-- `main`, from authentication to loop completion. -/
def runMain (env : Env) (companyIds : List Int) (maxPickings : Nat) : RunResult :=
  match env.authenticate with
  | .error e => ⟨[{ status := "error", message := "auth error: " ++ e }], [], 1⟩
  | .ok uid =>
    if !truthy uid then
      ⟨[{ status := "error", message := "auth failed (no uid)" }], [], 1⟩
    else
      match env.searchPickings (mainDomain companyIds) maxPickings with
      | .error e => ⟨[{ status := "error", message := "search error: " ++ e }], [], 1⟩
      | .ok [] => ⟨[{ status := "skip", message := "no pickings found" }], [], 0⟩
      | .ok ids =>
        match env.readPickings ids with
        | .error e => ⟨[{ status := "error", message := "read pickings error: " ++ e }], [], 1⟩
        | .ok ps =>
          let r := runCandidates env ps
          ⟨r.logs, r.writes, if r.crashed then 1 else 0⟩

/-- The record shape the ERP consults when evaluating the selection
domain over one picking: the milestone and state values of its related
transfers, its linked shipment ids, and its company. -/
structure PickingSearchView where
  transfer_milestones : List String
  transfer_states : List String
  tpl_shipment_ids : List Int
  company_id : Int

/-- ERP-side evaluation of one domain condition, per the documented search
semantics of the ERP boundary: a dotted x2many path compares against each
related record (existential), `= False` on an x2many field means the field
is empty, and `in` is membership. -/
def evalCond (v : PickingSearchView) : String × String × PyVal → Bool
  | ("tpl_transfer_ids.milestone_state", "=", .vstr s) => v.transfer_milestones.contains s
  | ("tpl_transfer_ids.state", "=", .vstr s) => v.transfer_states.contains s
  | ("tpl_shipment_ids", "=", .vbool false) => v.tpl_shipment_ids.isEmpty
  | ("company_id", "in", .vlist vs) => vs.any (fun x => pyBeq x (.vint v.company_id))
  | _ => false

/-- ERP-side evaluation of a conjunction-of-conditions domain. -/
def evalDomain (v : PickingSearchView) (d : List (String × String × PyVal)) : Bool :=
  d.all (evalCond v)

/-- The ERP executing `search("stock.picking", domain, limit=MAX_PICKINGS)`:
the ids of the records satisfying the domain, capped at the limit. -/
def selectPickings (recs : List (Int × PickingSearchView)) (companyIds : List Int)
    (limit : Nat) : List Int :=
  ((recs.filter (fun r => evalDomain r.2 (mainDomain companyIds))).map (fun r => r.1)).take limit

/-- The example response body documented in the source comment of
`mf_get_tracking`, restricted to the consumed fields. -/
def samplePayload : PyVal :=
  .vlist [.vdict [
    ("ourReference", .vstr "44775816"),
    ("trackingUrl", .vstr "https://www.mainfreight.com/track/MIMSAMO/44775816"),
    ("carrierReferences", .vlist [.vdict [
      ("reference", .vstr "1ZE5E8142094546050"),
      ("carrierName", .vstr "UPS"),
      ("trackingUrl", .vstr "https://wwwapps.ups.com/tracking")]]),
    ("events", .vlist [.vdict [("eventDateTime", .vstr "2025-08-12T14:23:00")]])]]

/-- A candidate with a sale order, an origin and a name. -/
def basePicking : Picking :=
  ⟨11, .vstr "WH/OUT/0001", .vstr "SO100", .vlist [.vint 7, .vstr "SO100"], [5]⟩

/-- A fully healthy oracle used to instantiate witnesses. -/
def baseEnv : Env where
  authenticate := .ok (.vint 2)
  searchPickings := fun _ _ => .ok [11]
  readPickings := fun _ => .ok [basePicking]
  readQueue := fun _ => .ok ⟨.vlist [.vint 9, .vstr "Mainfreight"]⟩
  readProvider := fun _ => .ok ⟨.vlist [.vint 4, .vstr "WH CA"]⟩
  readWarehouse := fun _ => .ok ⟨.vstr " US ", .vstr "WarehousingCA"⟩
  mf := fun _ _ _ => .ok samplePayload
  writeQueue := fun _ => .ok ()
  readMoveLines := fun _ => .ok [⟨.vlist [.vint 42, .vstr "Prod"], 3⟩]
  createShipment := fun _ => .ok 77
  linkShipment := fun _ _ => .ok ()

example :
    mf_extract samplePayload = .ok
      ⟨.vstr "1ZE5E8142094546050", .vstr "https://wwwapps.ups.com/tracking",
        .vstr "UPS", some "2025-08-12 14:23:00"⟩ := by rfl

example :
    (processPicking baseEnv basePicking).writes =
      [.queueDone 5,
       .createShipment ⟨.vstr "1ZE5E8142094546050", .vstr "https://wwwapps.ups.com/tracking",
         .vstr "UPS", some "2025-08-12 14:23:00", [(.vint 42, 3)]⟩,
       .linkShipment 11 77] := by rfl

example : (processPicking baseEnv basePicking).logs.map LogEntry.status = ["ok"] := by rfl

example : (runMain baseEnv [1] 50).exitCode = 0 := by rfl

/-- When the reference is truthy, the first transfer id is a non-zero `t`,
and the three-hop routing chain resolves to non-blank region and service
codes, the per-candidate body reduces to the tracking stage. -/
theorem processPicking_routes (env : Env) (p : Picking) (t : Int)
    (q : QueueRec) (pr : ProviderRec) (w : WarehouseRec)
    (region service_type : String)
    (href : truthy (pickingReference p) = true)
    (ht : (p.tpl_transfer_ids.head?).getD 0 = t) (ht0 : t ≠ 0)
    (hq : env.readQueue t = .ok q) (hprov : isPair q.tpl_provider = true)
    (hpr : env.readProvider (pyFst q.tpl_provider) = .ok pr)
    (hwh : isPair pr.default_tpl_warehouse_id = true)
    (hw : env.readWarehouse (pyFst pr.default_tpl_warehouse_id) = .ok w)
    (hreg : stripOr w.region_code = some region)
    (hsvc : stripOr w.service_code = some service_type)
    (hreg0 : region ≠ "") (hsvc0 : service_type ≠ "") :
    processPicking env p = trackingStage env p.id (pickingReference p) region service_type t := by
  simp only [processPicking, ht, hq, hprov, hpr, hwh, hw, hreg, hsvc]
  simp [href, ht0, hreg0, hsvc0]

/-- A successful HTTP call whose body extracts cleanly surfaces the
extracted result at the call site. -/
theorem mf_get_tracking_ok (body : PyVal) (res : MfResult)
    (h : mf_extract body = .ok res) : mf_get_tracking (.ok body) = .ok res := by
  simp [mf_get_tracking, h]

/-- The guard `if not tracking_url or not tracking_number` taken: the
tracking stage ends with the single "No tracking info" error entry and no
write. -/
theorem trackingStage_no_tracking (env : Env) (pid : Int) (reference : PyVal)
    (region service_type : String) (t : Int) (body : PyVal) (res : MfResult)
    (hmf : env.mf region service_type reference = .ok body)
    (hex : mf_extract body = .ok res)
    (hcond : (!truthy res.tracking_url || !truthy res.tracking_number) = true) :
    trackingStage env pid reference region service_type t =
      ⟨[{ picking_id := some pid, reference := some reference, region := some region,
          service_type := some service_type, status := "error",
          message := "No tracking info for ref '" ++ pyStr reference ++ "' (region=" ++
            region ++ ", service=" ++ service_type ++ ")." }], [], false⟩ := by
  simp [trackingStage, hmf, mf_get_tracking, hex, hcond]

/-- C1: for a candidate whose tracking lookup succeeds (2xx, extractable
body) but yields an unset tracking_number or tracking_url, the pipeline
emits exactly one log entry, with status "error" (not "skip"), and records
no ERP write for that candidate: no transfer-state write, no shipment
creation, no link. -/
theorem C1_no_tracking_is_error (env : Env) (p : Picking) (t : Int)
    (q : QueueRec) (pr : ProviderRec) (w : WarehouseRec)
    (region service_type : String)
    (body : PyVal) (res : MfResult)
    (href : truthy (pickingReference p) = true)
    (ht : (p.tpl_transfer_ids.head?).getD 0 = t) (ht0 : t ≠ 0)
    (hq : env.readQueue t = .ok q) (hprov : isPair q.tpl_provider = true)
    (hpr : env.readProvider (pyFst q.tpl_provider) = .ok pr)
    (hwh : isPair pr.default_tpl_warehouse_id = true)
    (hw : env.readWarehouse (pyFst pr.default_tpl_warehouse_id) = .ok w)
    (hreg : stripOr w.region_code = some region)
    (hsvc : stripOr w.service_code = some service_type)
    (hreg0 : region ≠ "") (hsvc0 : service_type ≠ "")
    (hmf : env.mf region service_type (pickingReference p) = .ok body)
    (hex : mf_extract body = .ok res)
    (hunset : res.tracking_number = .vnone ∨ res.tracking_url = .vnone) :
    ∃ entry, processPicking env p = ⟨[entry], [], false⟩ ∧ entry.status = "error" := by
  have hc : (!truthy res.tracking_url || !truthy res.tracking_number) = true := by
    rcases hunset with h | h <;> rw [h] <;> simp [truthy]
  refine ⟨{ picking_id := some p.id, reference := some (pickingReference p),
            region := some region, service_type := some service_type, status := "error",
            message := "No tracking info for ref '" ++ pyStr (pickingReference p) ++
              "' (region=" ++ region ++ ", service=" ++ service_type ++ ")." }, ?_, rfl⟩
  rw [processPicking_routes env p t q pr w region service_type
    href ht ht0 hq hprov hpr hwh hw hreg hsvc hreg0 hsvc0]
  exact trackingStage_no_tracking env p.id (pickingReference p) region service_type t body res
    hmf hex hc

/-- An oracle whose tracking endpoint answers 200 with a single-element
array having no carrier references: the extracted result is all-unset. -/
def envNoCarrier : Env := { baseEnv with mf := fun _ _ _ => .ok (.vlist [.vdict []]) }

/-- Witness for C1: the all-unset tracking result at a healthy candidate
produces one "error" entry and no writes. -/
theorem C1_no_tracking_is_error_witness :
    ∃ entry, processPicking envNoCarrier basePicking = ⟨[entry], [], false⟩ ∧
      entry.status = "error" :=
  C1_no_tracking_is_error envNoCarrier basePicking 5
    ⟨.vlist [.vint 9, .vstr "Mainfreight"]⟩ ⟨.vlist [.vint 4, .vstr "WH CA"]⟩
    ⟨.vstr " US ", .vstr "WarehousingCA"⟩ "US" "WarehousingCA"
    (.vlist [.vdict []]) ⟨.vnone, .vnone, .vnone, Option.none⟩
    (by rfl) (by rfl) (by decide) (by rfl) (by rfl) (by rfl) (by rfl) (by rfl)
    (by rfl) (by rfl) (by decide) (by decide) (by rfl) (by rfl) (Or.inl rfl)

/-- A candidate whose sale_id is a well-formed (id, label) pair with an
empty label, and whose origin is set. -/
def p2 : Picking :=
  ⟨21, .vstr "WH/OUT/0002", .vstr "SO-ORIGIN", .vlist [.vint 7, .vstr ""], [5]⟩

/-- An oracle whose tracking endpoint fails with HTTP 500. -/
def envHttp500 : Env := { baseEnv with mf := fun _ _ _ => .httpError 500 "Server Error" }

/-- C2 counterexample: `p2.sale_id` is a well-formed (id, label) pair, so
the claim says the reference sent to the tracking provider is its sale
label "".  The pipeline instead sends the origin "SO-ORIGIN" — Python `or`
falls through on the falsy empty label — as both the computed reference
and the reference recorded on the tracking-call log entry show. -/
theorem C2_reference_cex :
    p2.sale_id = .vlist [.vint 7, .vstr ""] ∧
    saleLabel p2 = .vstr "" ∧
    pickingReference p2 = .vstr "SO-ORIGIN" ∧
    pickingReference p2 ≠ saleLabel p2 ∧
    (processPicking envHttp500 p2).logs.map LogEntry.reference = [some (.vstr "SO-ORIGIN")] := by
  refine ⟨rfl, rfl, rfl, ?_, rfl⟩
  intro h
  rw [show pickingReference p2 = .vstr "SO-ORIGIN" from rfl,
    show saleLabel p2 = .vstr "" from rfl] at h
  exact absurd (PyVal.vstr.inj h) (by decide)

/-- C2 (amended): the reference is the sale label when sale_id is a
well-formed (id, label) pair whose label is truthy; otherwise the origin
when truthy; otherwise the name.  When the resulting reference is falsy
(all three absent or empty) the pipeline emits exactly one "skip" entry
for the candidate, performs no write, and consults no part of the oracle
(the outcome is the same for every `env`, so no further remote call is
made for that candidate). -/
theorem C2_reference_cascade (p : Picking) (env : Env) :
    (∀ i l, p.sale_id = .vlist [i, l] → truthy l = true → pickingReference p = l) ∧
    (truthy (saleLabel p) = false → truthy p.origin = true → pickingReference p = p.origin) ∧
    (truthy (saleLabel p) = false → truthy p.origin = false → pickingReference p = p.name) ∧
    (truthy (pickingReference p) = false →
      processPicking env p =
        ⟨[{ picking_id := some p.id, status := "skip",
            message := "Skip: no reference (sale/origin/name)." }], [], false⟩) := by
  refine ⟨?_, ?_, ?_, ?_⟩
  · intro i l hs hl
    simp [pickingReference, saleLabel, hs, pyOr, hl]
  · intro hs ho
    simp [pickingReference, pyOr, hs, ho]
  · intro hs ho
    simp [pickingReference, pyOr, hs, ho]
  · intro hr
    simp [processPicking, hr]

/-- A candidate with no sale order, no origin and no name (the ERP
delivers False for unset char fields; any falsy value behaves alike). -/
def noRefPicking : Picking := ⟨31, .vbool false, .vbool false, .vbool false, [5]⟩

/-- Witness for C2 (amended): the sale-label case at a concrete candidate,
and the all-absent skip at another. -/
theorem C2_reference_cascade_witness :
    pickingReference basePicking = .vstr "SO100" ∧
    processPicking baseEnv noRefPicking =
      ⟨[{ picking_id := some 31, status := "skip",
          message := "Skip: no reference (sale/origin/name)." }], [], false⟩ :=
  ⟨(C2_reference_cascade basePicking baseEnv).1 (.vint 7) (.vstr "SO100") rfl (by decide),
   (C2_reference_cascade noRefPicking baseEnv).2.2.2 (by decide)⟩

/-- C3: with a truthy reference and a usable transfer id, each failure
point of the three-hop routing chain has the documented classification,
always with exactly one entry and no ERP write, and (for the skip cases)
no tracking-provider call — each conjunct holds for every oracle agreeing
on the stated read outcomes, so the tracking endpoint is never consulted:
(i) queue read failure → "error"; (ii) malformed tpl_provider → "skip";
(iii) provider read failure → "error"; (iv) malformed
default_tpl_warehouse_id → "skip"; (v) warehouse read failure → "error";
(vi) region_code or service_code blank after stripping → "skip". -/
theorem C3_routing_chain (p : Picking) (t : Int)
    (href : truthy (pickingReference p) = true)
    (ht : (p.tpl_transfer_ids.head?).getD 0 = t) (ht0 : t ≠ 0) :
    (∀ env : Env, ∀ e, env.readQueue t = .error e →
      processPicking env p =
        ⟨[{ picking_id := some p.id, reference := some (pickingReference p), status := "error",
            message := "Read tpl.queue error: " ++ e }], [], false⟩) ∧
    (∀ env : Env, ∀ q, env.readQueue t = .ok q → isPair q.tpl_provider = false →
      processPicking env p =
        ⟨[{ picking_id := some p.id, reference := some (pickingReference p), status := "skip",
            message := "Skip: missing tpl_provider on queue " ++ toString t ++ "." }],
          [], false⟩) ∧
    (∀ env : Env, ∀ q e, env.readQueue t = .ok q → isPair q.tpl_provider = true →
      env.readProvider (pyFst q.tpl_provider) = .error e →
      processPicking env p =
        ⟨[{ picking_id := some p.id, reference := some (pickingReference p), status := "error",
            message := "Read tpl.provider error: " ++ e }], [], false⟩) ∧
    (∀ env : Env, ∀ q pr, env.readQueue t = .ok q → isPair q.tpl_provider = true →
      env.readProvider (pyFst q.tpl_provider) = .ok pr →
      isPair pr.default_tpl_warehouse_id = false →
      processPicking env p =
        ⟨[{ picking_id := some p.id, reference := some (pickingReference p), status := "skip",
            message := "Skip: missing default_tpl_warehouse_id on provider " ++
              pyStr (pyFst q.tpl_provider) ++ "." }], [], false⟩) ∧
    (∀ env : Env, ∀ q pr e, env.readQueue t = .ok q → isPair q.tpl_provider = true →
      env.readProvider (pyFst q.tpl_provider) = .ok pr →
      isPair pr.default_tpl_warehouse_id = true →
      env.readWarehouse (pyFst pr.default_tpl_warehouse_id) = .error e →
      processPicking env p =
        ⟨[{ picking_id := some p.id, reference := some (pickingReference p), status := "error",
            message := "Read tpl.warehouse error: " ++ e }], [], false⟩) ∧
    (∀ env : Env, ∀ q pr w region service_type, env.readQueue t = .ok q →
      isPair q.tpl_provider = true →
      env.readProvider (pyFst q.tpl_provider) = .ok pr →
      isPair pr.default_tpl_warehouse_id = true →
      env.readWarehouse (pyFst pr.default_tpl_warehouse_id) = .ok w →
      stripOr w.region_code = some region → stripOr w.service_code = some service_type →
      (region = "" ∨ service_type = "") →
      processPicking env p =
        ⟨[{ picking_id := some p.id, reference := some (pickingReference p), status := "skip",
            message := "Skip: missing region/service (warehouse " ++
              pyStr (pyFst pr.default_tpl_warehouse_id) ++ ")." }], [], false⟩) := by
  refine ⟨?_, ?_, ?_, ?_, ?_, ?_⟩
  · intro env e hq
    simp only [processPicking, ht, hq]
    simp [href, ht0]
  · intro env q hq hnp
    simp only [processPicking, ht, hq]
    simp [href, ht0, hnp]
  · intro env q e hq hp hpe
    simp only [processPicking, ht, hq, hpe]
    simp [href, ht0, hp]
  · intro env q pr hq hp hpr hnw
    simp only [processPicking, ht, hq, hpr]
    simp [href, ht0, hp, hnw]
  · intro env q pr e hq hp hpr hw hwe
    simp only [processPicking, ht, hq, hpr, hwe]
    simp [href, ht0, hp, hw]
  · intro env q pr w region service_type hq hp hpr hwp hw hreg hsvc hblank
    simp only [processPicking, ht, hq, hpr, hw, hreg, hsvc]
    rcases hblank with h | h <;> simp [href, ht0, hp, hwp, h]

/-- Oracles exercising each stop of the routing chain. -/
def envQueueErr : Env := { baseEnv with readQueue := fun _ => .error "boom" }

/-- Queue record whose provider field is the ERP's False. -/
def envNoProvider : Env := { baseEnv with readQueue := fun _ => .ok ⟨.vbool false⟩ }

/-- Provider read failure. -/
def envProviderErr : Env := { baseEnv with readProvider := fun _ => .error "boom2" }

/-- Provider record whose warehouse field is the ERP's False. -/
def envNoWarehouse : Env := { baseEnv with readProvider := fun _ => .ok ⟨.vbool false⟩ }

/-- Warehouse read failure. -/
def envWarehouseErr : Env := { baseEnv with readWarehouse := fun _ => .error "boom3" }

/-- Warehouse record whose region is whitespace only. -/
def envBlankRegion : Env :=
  { baseEnv with readWarehouse := fun _ => .ok ⟨.vstr "   ", .vstr "WarehousingCA"⟩ }

/-- Witness for C3: all six chain outcomes at concrete oracles. -/
theorem C3_routing_chain_witness :
    processPicking envQueueErr basePicking =
      ⟨[{ picking_id := some 11, reference := some (.vstr "SO100"), status := "error",
          message := "Read tpl.queue error: boom" }], [], false⟩ ∧
    processPicking envNoProvider basePicking =
      ⟨[{ picking_id := some 11, reference := some (.vstr "SO100"), status := "skip",
          message := "Skip: missing tpl_provider on queue 5." }], [], false⟩ ∧
    processPicking envProviderErr basePicking =
      ⟨[{ picking_id := some 11, reference := some (.vstr "SO100"), status := "error",
          message := "Read tpl.provider error: boom2" }], [], false⟩ ∧
    processPicking envNoWarehouse basePicking =
      ⟨[{ picking_id := some 11, reference := some (.vstr "SO100"), status := "skip",
          message := "Skip: missing default_tpl_warehouse_id on provider 9." }], [], false⟩ ∧
    processPicking envWarehouseErr basePicking =
      ⟨[{ picking_id := some 11, reference := some (.vstr "SO100"), status := "error",
          message := "Read tpl.warehouse error: boom3" }], [], false⟩ ∧
    processPicking envBlankRegion basePicking =
      ⟨[{ picking_id := some 11, reference := some (.vstr "SO100"), status := "skip",
          message := "Skip: missing region/service (warehouse 4)." }], [], false⟩ := by
  refine ⟨?_, ?_, ?_, ?_, ?_, ?_⟩
  · exact (C3_routing_chain basePicking 5 (by decide) (by rfl) (by decide)).1
      envQueueErr "boom" (by rfl)
  · exact (C3_routing_chain basePicking 5 (by decide) (by rfl) (by decide)).2.1
      envNoProvider ⟨.vbool false⟩ (by rfl) (by rfl)
  · exact (C3_routing_chain basePicking 5 (by decide) (by rfl) (by decide)).2.2.1
      envProviderErr ⟨.vlist [.vint 9, .vstr "Mainfreight"]⟩ "boom2" (by rfl) (by rfl) (by rfl)
  · exact (C3_routing_chain basePicking 5 (by decide) (by rfl) (by decide)).2.2.2.1
      envNoWarehouse ⟨.vlist [.vint 9, .vstr "Mainfreight"]⟩ ⟨.vbool false⟩
      (by rfl) (by rfl) (by rfl) (by rfl)
  · exact (C3_routing_chain basePicking 5 (by decide) (by rfl) (by decide)).2.2.2.2.1
      envWarehouseErr ⟨.vlist [.vint 9, .vstr "Mainfreight"]⟩ ⟨.vlist [.vint 4, .vstr "WH CA"]⟩
      "boom3" (by rfl) (by rfl) (by rfl) (by rfl) (by rfl)
  · exact (C3_routing_chain basePicking 5 (by decide) (by rfl) (by decide)).2.2.2.2.2
      envBlankRegion ⟨.vlist [.vint 9, .vstr "Mainfreight"]⟩ ⟨.vlist [.vint 4, .vstr "WH CA"]⟩
      ⟨.vstr "   ", .vstr "WarehousingCA"⟩ "" "WarehousingCA"
      (by rfl) (by rfl) (by rfl) (by rfl) (by rfl) (by rfl) (by rfl) (Or.inl rfl)

/-- C4: the tracking client derives its result from the first element of
the response array only; tracking_number, tracking_url and carrier name
are taken from the first entry of that element's carrierReferences list;
an absent or empty carrierReferences list leaves all three unset; and an
empty payload or one that is not a list (the code's
`not isinstance(data, list) or not data` guard) yields the all-unset
result instead of failing. -/
theorem C4_first_element_only :
    (∀ d : PyVal, (∀ xs, d ≠ .vlist xs) →
      mf_extract d = .ok ⟨.vnone, .vnone, .vnone, Option.none⟩) ∧
    (mf_extract (.vlist []) = .ok ⟨.vnone, .vnone, .vnone, Option.none⟩) ∧
    (∀ item rest, mf_extract (.vlist (item :: rest)) = mf_extract (.vlist [item])) ∧
    (∀ kvs rest res,
      (dictGetD kvs "carrierReferences" = .vnone ∨ dictGetD kvs "carrierReferences" = .vlist []) →
      mf_extract (.vlist (.vdict kvs :: rest)) = .ok res →
      res.tracking_number = .vnone ∧ res.tracking_url = .vnone ∧
        res.shipping_method = .vnone) ∧
    (∀ kvs rest cd crrest res,
      dictGetD kvs "carrierReferences" = .vlist (.vdict cd :: crrest) →
      mf_extract (.vlist (.vdict kvs :: rest)) = .ok res →
      res.tracking_number = dictGetD cd "reference" ∧
        res.tracking_url = dictGetD cd "trackingUrl" ∧
        res.shipping_method = dictGetD cd "carrierName") := by
  refine ⟨?_, by rfl, ?_, ?_, ?_⟩
  · intro d hd
    cases d with
    | vlist xs => exact absurd rfl (hd xs)
    | vnone => rfl
    | vbool b => rfl
    | vint n => rfl
    | vstr s => rfl
    | vdict kvs => rfl
  · intro item rest
    rfl
  · intro kvs rest res hcr hex
    have hc : extractCarrier (.vdict kvs) = .ok (.vnone, .vnone, .vnone) := by
      rcases hcr with h | h <;>
      · simp only [extractCarrier, pyGet, h]
        simp [bind, Except.bind, pyOr, truthy]
    cases hds : extractShipDate (.vdict kvs) with
    | error e =>
      rw [show mf_extract (.vlist (.vdict kvs :: rest)) =
        (do
          let cf ← extractCarrier (.vdict kvs)
          let ds ← extractShipDate (.vdict kvs)
          .ok ⟨cf.1, cf.2.1, cf.2.2, ds⟩) from rfl, hc, hds] at hex
      cases hex
    | ok ds =>
      rw [show mf_extract (.vlist (.vdict kvs :: rest)) =
        (do
          let cf ← extractCarrier (.vdict kvs)
          let ds ← extractShipDate (.vdict kvs)
          .ok ⟨cf.1, cf.2.1, cf.2.2, ds⟩) from rfl, hc, hds] at hex
      cases hex
      exact ⟨rfl, rfl, rfl⟩
  · intro kvs rest cd crrest res hcr hex
    have hc : extractCarrier (.vdict kvs) =
        .ok (dictGetD cd "reference", dictGetD cd "trackingUrl", dictGetD cd "carrierName") := by
      cases cd with
      | nil =>
        simp only [extractCarrier, pyGet, hcr]
        simp [bind, Except.bind, pyOr, truthy, dictGetD]
      | cons hd tl =>
        simp only [extractCarrier, pyGet, hcr]
        simp [bind, Except.bind, pyOr, truthy]
    cases hds : extractShipDate (.vdict kvs) with
    | error e =>
      rw [show mf_extract (.vlist (.vdict kvs :: rest)) =
        (do
          let cf ← extractCarrier (.vdict kvs)
          let ds ← extractShipDate (.vdict kvs)
          .ok ⟨cf.1, cf.2.1, cf.2.2, ds⟩) from rfl, hc, hds] at hex
      cases hex
    | ok ds =>
      rw [show mf_extract (.vlist (.vdict kvs :: rest)) =
        (do
          let cf ← extractCarrier (.vdict kvs)
          let ds ← extractShipDate (.vdict kvs)
          .ok ⟨cf.1, cf.2.1, cf.2.2, ds⟩) from rfl, hc, hds] at hex
      cases hex
      exact ⟨rfl, rfl, rfl⟩

/-- Witness for C4: the hypotheses discharged at concrete payloads — a
non-list payload, a first element with empty carrierReferences, and the
documented sample payload. -/
theorem C4_first_element_only_witness :
    mf_extract (.vdict [("error", .vstr "bad request")]) =
      .ok ⟨.vnone, .vnone, .vnone, Option.none⟩ ∧
    mf_extract (.vlist (.vdict [("carrierReferences", .vlist [])] :: [.vdict []])) =
      mf_extract (.vlist [.vdict [("carrierReferences", .vlist [])]]) ∧
    (⟨.vnone, .vnone, .vnone, Option.none⟩ : MfResult).tracking_number = .vnone ∧
    (⟨.vstr "1ZE5E8142094546050", .vstr "https://wwwapps.ups.com/tracking", .vstr "UPS",
        some "2025-08-12 14:23:00"⟩ : MfResult).tracking_number =
      dictGetD [("reference", .vstr "1ZE5E8142094546050"), ("carrierName", .vstr "UPS"),
        ("trackingUrl", .vstr "https://wwwapps.ups.com/tracking")] "reference" := by
  refine ⟨C4_first_element_only.1 (.vdict [("error", .vstr "bad request")]) (fun xs h => by cases h),
    C4_first_element_only.2.2.1 (.vdict [("carrierReferences", .vlist [])]) [.vdict []],
    (C4_first_element_only.2.2.2.1 [("carrierReferences", .vlist [])] []
      ⟨.vnone, .vnone, .vnone, Option.none⟩ (Or.inr rfl) (by rfl)).1,
    (C4_first_element_only.2.2.2.2
      [("trackingUrl", .vstr "https://www.mainfreight.com/track/MIMSAMO/44775816"),
       ("carrierReferences", .vlist [.vdict [("reference", .vstr "1ZE5E8142094546050"),
          ("carrierName", .vstr "UPS"),
          ("trackingUrl", .vstr "https://wwwapps.ups.com/tracking")]]),
       ("events", .vlist [.vdict [("eventDateTime", .vstr "2025-08-12T14:23:00")]])]
      [] [("reference", .vstr "1ZE5E8142094546050"), ("carrierName", .vstr "UPS"),
          ("trackingUrl", .vstr "https://wwwapps.ups.com/tracking")] []
      ⟨.vstr "1ZE5E8142094546050", .vstr "https://wwwapps.ups.com/tracking", .vstr "UPS",
        some "2025-08-12 14:23:00"⟩ (by rfl) (by rfl)).1⟩

/-- A 200 response whose first event carries an unparsable eventDateTime. -/
def badDatePayload : PyVal :=
  .vlist [.vdict [("events", .vlist [.vdict [("eventDateTime", .vstr "not-a-date")]])]]

/-- C5 counterexample: on a payload whose first event has the truthy but
unparsable eventDateTime "not-a-date", the body extraction raises
(ValueError from `datetime.fromisoformat` — the source wraps it in no
try/except), so the lookup fails instead of returning a result with
shipped_at unset, contradicting the claim that an unparsable value leaves
shipped_at unset rather than failing. -/
theorem C5_unparsable_date_cex :
    mf_extract badDatePayload = .error "ValueError: Invalid isoformat string" ∧
    (mf_extract badDatePayload).isOk = false :=
  ⟨rfl, rfl⟩

/-- The body extraction propagates a raised exception from the events part
when the carrier part went through. -/
theorem mf_extract_shipdate_error (kvs : List (String × PyVal)) (rest : List PyVal)
    (cf : PyVal × PyVal × PyVal) (e : String)
    (hc : extractCarrier (.vdict kvs) = .ok cf)
    (hd : extractShipDate (.vdict kvs) = .error e) :
    mf_extract (.vlist (.vdict kvs :: rest)) = .error e := by
  rw [show mf_extract (.vlist (.vdict kvs :: rest)) =
    (do
      let cf ← extractCarrier (.vdict kvs)
      let ds ← extractShipDate (.vdict kvs)
      .ok ⟨cf.1, cf.2.1, cf.2.2, ds⟩) from rfl, hc, hd]
  rfl

/-- C5 (amended): shipped_at is parsed from the eventDateTime of the first
entry of the response's event list and reformatted to
"YYYY-MM-DD HH:MM:SS"; an absent (or falsy) eventDateTime — or an absent
event list — leaves shipped_at unset; but a truthy, unparsable
eventDateTime makes the whole lookup raise, which the pipeline catches and
classifies as one "error" entry for the candidate with no ERP write. -/
theorem C5_shipdate (kvs ed : List (String × PyVal)) (evrest : List PyVal) :
    (∀ s dt, dictGetD kvs "events" = .vlist (.vdict ed :: evrest) →
      dictGetD ed "eventDateTime" = .vstr s → truthy (.vstr s) = true →
      pyFromIso s = some dt →
      extractShipDate (.vdict kvs) = .ok (some (pyStrftime dt))) ∧
    (dictGetD kvs "events" = .vlist (.vdict ed :: evrest) →
      dictGetD ed "eventDateTime" = .vnone →
      extractShipDate (.vdict kvs) = .ok Option.none) ∧
    (dictGetD kvs "events" = .vnone →
      extractShipDate (.vdict kvs) = .ok Option.none) ∧
    (∀ s, dictGetD kvs "events" = .vlist (.vdict ed :: evrest) →
      dictGetD ed "eventDateTime" = .vstr s → truthy (.vstr s) = true →
      pyFromIso s = Option.none →
      extractShipDate (.vdict kvs) = .error "ValueError: Invalid isoformat string") ∧
    (∀ (env : Env) (p : Picking) (t : Int) (q : QueueRec) (pr : ProviderRec)
        (w : WarehouseRec) (region service_type : String) (body : PyVal) (e : String),
      truthy (pickingReference p) = true →
      (p.tpl_transfer_ids.head?).getD 0 = t → t ≠ 0 →
      env.readQueue t = .ok q → isPair q.tpl_provider = true →
      env.readProvider (pyFst q.tpl_provider) = .ok pr →
      isPair pr.default_tpl_warehouse_id = true →
      env.readWarehouse (pyFst pr.default_tpl_warehouse_id) = .ok w →
      stripOr w.region_code = some region → stripOr w.service_code = some service_type →
      region ≠ "" → service_type ≠ "" →
      env.mf region service_type (pickingReference p) = .ok body →
      mf_extract body = .error e →
      processPicking env p =
        ⟨[{ picking_id := some p.id, reference := some (pickingReference p),
            region := some region, service_type := some service_type, status := "error",
            message := "Mainfreight error: " ++ e }], [], false⟩) := by
  refine ⟨?_, ?_, ?_, ?_, ?_⟩
  · intro s dt hev hed hts hfi
    simp only [extractShipDate, pyGet, hev]
    simp [bind, Except.bind, pyOr, truthy, hed, hts, hfi]
    simpa [truthy] using hts
  · intro hev hed
    simp only [extractShipDate, pyGet, hev]
    simp [bind, Except.bind, pyOr, truthy, hed]
  · intro hev
    simp only [extractShipDate, pyGet, hev]
    simp [bind, Except.bind, pyOr, truthy]
  · intro s hev hed hts hfi
    simp only [extractShipDate, pyGet, hev]
    simp [bind, Except.bind, pyOr, truthy, hed, hts, hfi]
    simpa [truthy] using hts
  · intro env p t q pr w region service_type body e href ht ht0 hq hp hpr hwp hw
      hreg hsvc hreg0 hsvc0 hmf hex
    rw [processPicking_routes env p t q pr w region service_type
      href ht ht0 hq hp hpr hwp hw hreg hsvc hreg0 hsvc0]
    simp [trackingStage, hmf, mf_get_tracking, hex]

/-- An oracle answering the tracking call with the unparsable-date
payload. -/
def envBadDate : Env := { baseEnv with mf := fun _ _ _ => .ok badDatePayload }

/-- Witness for C5 (amended): parse success, the two absent cases, the
unparsable case, and the end-to-end error entry, all at concrete inputs. -/
theorem C5_shipdate_witness :
    extractShipDate (.vdict [("events", .vlist [.vdict
        [("eventDateTime", .vstr "2025-08-12T14:23:00")]])]) =
      .ok (some "2025-08-12 14:23:00") ∧
    extractShipDate (.vdict [("events", .vlist [.vdict []])]) = .ok Option.none ∧
    extractShipDate (.vdict []) = .ok Option.none ∧
    extractShipDate (.vdict [("events", .vlist [.vdict
        [("eventDateTime", .vstr "not-a-date")]])]) =
      .error "ValueError: Invalid isoformat string" ∧
    processPicking envBadDate basePicking =
      ⟨[{ picking_id := some 11, reference := some (.vstr "SO100"),
          region := some "US", service_type := some "WarehousingCA", status := "error",
          message := "Mainfreight error: ValueError: Invalid isoformat string" }],
        [], false⟩ := by
  refine ⟨?_, ?_, ?_, ?_, ?_⟩
  · exact (C5_shipdate [("events", .vlist [.vdict [("eventDateTime", .vstr "2025-08-12T14:23:00")]])]
      [("eventDateTime", .vstr "2025-08-12T14:23:00")] []).1 "2025-08-12T14:23:00"
      ⟨2025, 8, 12, 14, 23, 0⟩ (by rfl) (by rfl) (by decide) (by decide)
  · exact (C5_shipdate [("events", .vlist [.vdict []])] [] []).2.1 (by rfl) (by rfl)
  · exact (C5_shipdate [] [] []).2.2.1 (by rfl)
  · exact (C5_shipdate [("events", .vlist [.vdict [("eventDateTime", .vstr "not-a-date")]])]
      [("eventDateTime", .vstr "not-a-date")] []).2.2.2.1 "not-a-date"
      (by rfl) (by rfl) (by decide) (by decide)
  · exact (C5_shipdate [] [] []).2.2.2.2 envBadDate basePicking 5
      ⟨.vlist [.vint 9, .vstr "Mainfreight"]⟩ ⟨.vlist [.vint 4, .vstr "WH CA"]⟩
      ⟨.vstr " US ", .vstr "WarehousingCA"⟩ "US" "WarehousingCA" badDatePayload
      "ValueError: Invalid isoformat string"
      (by decide) (by rfl) (by decide) (by rfl) (by rfl) (by rfl) (by rfl) (by rfl)
      (by rfl) (by rfl) (by decide) (by decide) (by rfl) (by rfl)

/-- C6: with routing resolved, a tracking-provider HTTPError (non-2xx) or
transport exception yields exactly one "error" entry — the HTTP status
code is preserved verbatim in the message — no ERP write, and the loop
continues with the remaining candidates unchanged. -/
theorem C6_provider_failure (env : Env) (p : Picking) (t : Int)
    (q : QueueRec) (pr : ProviderRec) (w : WarehouseRec)
    (region service_type : String)
    (href : truthy (pickingReference p) = true)
    (ht : (p.tpl_transfer_ids.head?).getD 0 = t) (ht0 : t ≠ 0)
    (hq : env.readQueue t = .ok q) (hprov : isPair q.tpl_provider = true)
    (hpr : env.readProvider (pyFst q.tpl_provider) = .ok pr)
    (hwh : isPair pr.default_tpl_warehouse_id = true)
    (hw : env.readWarehouse (pyFst pr.default_tpl_warehouse_id) = .ok w)
    (hreg : stripOr w.region_code = some region)
    (hsvc : stripOr w.service_code = some service_type)
    (hreg0 : region ≠ "") (hsvc0 : service_type ≠ "") :
    (∀ st e, env.mf region service_type (pickingReference p) = .httpError st e →
      processPicking env p =
        ⟨[{ picking_id := some p.id, reference := some (pickingReference p),
            region := some region, service_type := some service_type, status := "error",
            message := "Mainfreight HTTP " ++ toString st ++ ": " ++ e }], [], false⟩ ∧
      ∀ ps, runCandidates env (p :: ps) =
        ⟨{ picking_id := some p.id, reference := some (pickingReference p),
            region := some region, service_type := some service_type, status := "error",
            message := "Mainfreight HTTP " ++ toString st ++ ": " ++ e } ::
              (runCandidates env ps).logs,
          (runCandidates env ps).writes, (runCandidates env ps).crashed⟩) ∧
    (∀ e, env.mf region service_type (pickingReference p) = .exc e →
      processPicking env p =
        ⟨[{ picking_id := some p.id, reference := some (pickingReference p),
            region := some region, service_type := some service_type, status := "error",
            message := "Mainfreight error: " ++ e }], [], false⟩ ∧
      ∀ ps, runCandidates env (p :: ps) =
        ⟨{ picking_id := some p.id, reference := some (pickingReference p),
            region := some region, service_type := some service_type, status := "error",
            message := "Mainfreight error: " ++ e } :: (runCandidates env ps).logs,
          (runCandidates env ps).writes, (runCandidates env ps).crashed⟩) := by
  have hroutes := processPicking_routes env p t q pr w region service_type
    href ht ht0 hq hprov hpr hwh hw hreg hsvc hreg0 hsvc0
  constructor
  · intro st e hmf
    have h1 : processPicking env p =
        ⟨[{ picking_id := some p.id, reference := some (pickingReference p),
            region := some region, service_type := some service_type, status := "error",
            message := "Mainfreight HTTP " ++ toString st ++ ": " ++ e }], [], false⟩ := by
      rw [hroutes]
      simp [trackingStage, hmf, mf_get_tracking]
    exact ⟨h1, fun ps => by simp [runCandidates, h1]⟩
  · intro e hmf
    have h1 : processPicking env p =
        ⟨[{ picking_id := some p.id, reference := some (pickingReference p),
            region := some region, service_type := some service_type, status := "error",
            message := "Mainfreight error: " ++ e }], [], false⟩ := by
      rw [hroutes]
      simp [trackingStage, hmf, mf_get_tracking]
    exact ⟨h1, fun ps => by simp [runCandidates, h1]⟩

/-- An oracle whose tracking endpoint raises a transport timeout. -/
def envTimeout : Env := { baseEnv with mf := fun _ _ _ => .exc "ReadTimeout" }

/-- Witness for C6: HTTP 500 and a timeout at a concrete candidate; the
status code 500 appears in the logged message, and processing of a
following candidate is unaffected. -/
theorem C6_provider_failure_witness :
    processPicking envHttp500 basePicking =
      ⟨[{ picking_id := some 11, reference := some (.vstr "SO100"),
          region := some "US", service_type := some "WarehousingCA", status := "error",
          message := "Mainfreight HTTP 500: Server Error" }], [], false⟩ ∧
    runCandidates envTimeout [basePicking, noRefPicking] =
      ⟨[{ picking_id := some 11, reference := some (.vstr "SO100"),
          region := some "US", service_type := some "WarehousingCA", status := "error",
          message := "Mainfreight error: ReadTimeout" },
        { picking_id := some 31, status := "skip",
          message := "Skip: no reference (sale/origin/name)." }], [], false⟩ := by
  constructor
  · exact ((C6_provider_failure envHttp500 basePicking 5
      ⟨.vlist [.vint 9, .vstr "Mainfreight"]⟩ ⟨.vlist [.vint 4, .vstr "WH CA"]⟩
      ⟨.vstr " US ", .vstr "WarehousingCA"⟩ "US" "WarehousingCA"
      (by decide) (by rfl) (by decide) (by rfl) (by rfl) (by rfl) (by rfl) (by rfl)
      (by rfl) (by rfl) (by decide) (by decide)).1 500 "Server Error" (by rfl)).1
  · have h := ((C6_provider_failure envTimeout basePicking 5
      ⟨.vlist [.vint 9, .vstr "Mainfreight"]⟩ ⟨.vlist [.vint 4, .vstr "WH CA"]⟩
      ⟨.vstr " US ", .vstr "WarehousingCA"⟩ "US" "WarehousingCA"
      (by decide) (by rfl) (by decide) (by rfl) (by rfl) (by rfl) (by rfl) (by rfl)
      (by rfl) (by rfl) (by decide) (by decide)).2 "ReadTimeout" (by rfl)).2 [noRefPicking]
    rw [h]
    rfl

/-- Adding a positive quantity preserves positivity of every aggregated
sum. -/
theorem addQty_pos (acc : List (PyVal × Rat)) (k : PyVal) (v : Rat)
    (hacc : ∀ kv ∈ acc, 0 < kv.2) (hv : 0 < v) :
    ∀ kv ∈ addQty acc k v, 0 < kv.2 := by
  induction acc with
  | nil =>
    intro kv hkv
    simp [addQty] at hkv
    rw [hkv]
    exact hv
  | cons hd tl ih =>
    intro kv hkv
    rw [addQty] at hkv
    by_cases hb : pyBeq hd.1 k = true
    · rw [if_pos hb] at hkv
      rcases List.mem_cons.mp hkv with h | h
      · rw [h]
        exact add_pos (hacc hd (List.mem_cons_self hd tl)) hv
      · exact hacc kv (List.mem_cons_of_mem hd h)
    · rw [if_neg hb] at hkv
      rcases List.mem_cons.mp hkv with h | h
      · rw [h]
        exact hacc hd (List.mem_cons_self hd tl)
      · exact ih (fun kv hkv => hacc kv (List.mem_cons_of_mem hd hkv)) kv h

/-- When every move line has a positive quantity, every aggregated sum is
positive. -/
theorem aggLoop_pos (mls : List MoveLine) :
    ∀ acc agg, (∀ kv ∈ acc, 0 < kv.2) → (∀ l ∈ mls, 0 < l.qty_done) →
      aggLoop acc mls = some agg → ∀ kv ∈ agg, 0 < kv.2 := by
  induction mls with
  | nil =>
    intro acc agg hacc _ h
    rw [aggLoop] at h
    cases h
    exact hacc
  | cons ml rest ih =>
    intro acc agg hacc hml h
    rw [aggLoop] at h
    cases hpid : pidOf ml.product_id with
    | none => rw [hpid] at h; cases h
    | some pid =>
      rw [hpid] at h
      dsimp only at h
      by_cases htr : truthy pid = true
      · rw [if_pos htr] at h
        exact ih (addQty acc pid ml.qty_done) agg
          (addQty_pos acc pid ml.qty_done hacc (hml ml (List.mem_cons_self ml rest)))
          (fun l hl => hml l (List.mem_cons_of_mem ml hl)) h
      · rw [if_neg htr] at h
        exact ih acc agg hacc (fun l hl => hml l (List.mem_cons_of_mem ml hl)) h

/-- C7: with routing resolved, a usable tracking result, a successful
transfer-state write, and a move-line read whose lines all carry positive
quantities (the issued search filters on qty_done > 0) but whose
positive-sum aggregation is empty, the candidate ends with exactly one
"skip" entry and the write list holds exactly the already-performed
transfer "done" write — no shipment creation, no link, and no
compensating rollback of the done write. -/
theorem C7_empty_aggregation_skip (env : Env) (p : Picking) (t : Int)
    (q : QueueRec) (pr : ProviderRec) (w : WarehouseRec)
    (region service_type : String) (body : PyVal) (res : MfResult)
    (mls : List MoveLine) (agg : List (PyVal × Rat))
    (href : truthy (pickingReference p) = true)
    (ht : (p.tpl_transfer_ids.head?).getD 0 = t) (ht0 : t ≠ 0)
    (hq : env.readQueue t = .ok q) (hprov : isPair q.tpl_provider = true)
    (hpr : env.readProvider (pyFst q.tpl_provider) = .ok pr)
    (hwh : isPair pr.default_tpl_warehouse_id = true)
    (hw : env.readWarehouse (pyFst pr.default_tpl_warehouse_id) = .ok w)
    (hreg : stripOr w.region_code = some region)
    (hsvc : stripOr w.service_code = some service_type)
    (hreg0 : region ≠ "") (hsvc0 : service_type ≠ "")
    (hmf : env.mf region service_type (pickingReference p) = .ok body)
    (hex : mf_extract body = .ok res)
    (htu : truthy res.tracking_url = true) (htn : truthy res.tracking_number = true)
    (hwq : env.writeQueue t = .ok ())
    (hml : env.readMoveLines p.id = .ok mls)
    (hagg : aggregateLines mls = some agg)
    (hpos : ∀ l ∈ mls, 0 < l.qty_done)
    (hempty : agg.filter (fun kv => Rat.blt 0 kv.2) = []) :
    processPicking env p =
      ⟨[{ picking_id := some p.id, reference := some (pickingReference p),
          region := some region, service_type := some service_type, status := "skip",
          message := "No qty_done > 0 — skip shipment creation." }],
        [.queueDone t], false⟩ := by
  have hall : ∀ kv ∈ agg, 0 < kv.2 := aggLoop_pos mls [] agg (by simp) hpos hagg
  have hfe : agg.filter (fun kv => Rat.blt 0 kv.2) = agg :=
    List.filter_eq_self.mpr (fun kv hkv => hall kv hkv)
  have hae : agg = [] := by rw [← hfe, hempty]
  rw [processPicking_routes env p t q pr w region service_type
    href ht ht0 hq hprov hpr hwh hw hreg hsvc hreg0 hsvc0]
  rw [trackingStage, hmf, mf_get_tracking_ok body res hex]
  simp only [htu, htn, Bool.not_true, Bool.or_self, Bool.false_eq_true, if_false]
  rw [afterTracking, hwq]
  dsimp only
  rw [hml]
  dsimp only
  rw [hagg]
  simp [hae]

/-- An oracle whose move-line read returns no lines at all. -/
def envNoLines : Env := { baseEnv with readMoveLines := fun _ => .ok [] }

/-- Witness for C7: the empty move-line read at a healthy candidate keeps
the queueDone write and logs one "skip". -/
theorem C7_empty_aggregation_skip_witness :
    processPicking envNoLines basePicking =
      ⟨[{ picking_id := some 11, reference := some (.vstr "SO100"),
          region := some "US", service_type := some "WarehousingCA", status := "skip",
          message := "No qty_done > 0 — skip shipment creation." }],
        [.queueDone 5], false⟩ :=
  C7_empty_aggregation_skip envNoLines basePicking 5
    ⟨.vlist [.vint 9, .vstr "Mainfreight"]⟩ ⟨.vlist [.vint 4, .vstr "WH CA"]⟩
    ⟨.vstr " US ", .vstr "WarehousingCA"⟩ "US" "WarehousingCA" samplePayload
    ⟨.vstr "1ZE5E8142094546050", .vstr "https://wwwapps.ups.com/tracking", .vstr "UPS",
      some "2025-08-12 14:23:00"⟩ [] []
    (by decide) (by rfl) (by decide) (by rfl) (by rfl) (by rfl) (by rfl) (by rfl)
    (by rfl) (by rfl) (by decide) (by decide) (by rfl) (by rfl) (by decide) (by decide)
    (by rfl) (by rfl) (by rfl) (by intro l hl; cases hl) (by rfl)

/-- C8: an authentication failure (exception or falsy uid) and a
candidate-search failure each log exactly one run-level entry — status
"error", no candidate id (the entry's picking_id is its None default) —
perform no write, process no candidate, and exit with code 1; a run that
authenticates and completes the loop without an unhandled exception exits
with code 0, including the no-candidates case, which logs one run-level
"skip" entry. -/
theorem C8_exit_codes (env : Env) (cids : List Int) (mx : Nat) :
    (∀ e, env.authenticate = .error e →
      runMain env cids mx =
        ⟨[{ status := "error", message := "auth error: " ++ e }], [], 1⟩) ∧
    (∀ uid, env.authenticate = .ok uid → truthy uid = false →
      runMain env cids mx =
        ⟨[{ status := "error", message := "auth failed (no uid)" }], [], 1⟩) ∧
    (∀ uid e, env.authenticate = .ok uid → truthy uid = true →
      env.searchPickings (mainDomain cids) mx = .error e →
      runMain env cids mx =
        ⟨[{ status := "error", message := "search error: " ++ e }], [], 1⟩) ∧
    (∀ uid, env.authenticate = .ok uid → truthy uid = true →
      env.searchPickings (mainDomain cids) mx = .ok [] →
      runMain env cids mx =
        ⟨[{ status := "skip", message := "no pickings found" }], [], 0⟩) ∧
    (∀ uid ids ps, env.authenticate = .ok uid → truthy uid = true →
      env.searchPickings (mainDomain cids) mx = .ok ids →
      env.readPickings ids = .ok ps → (runCandidates env ps).crashed = false →
      (runMain env cids mx).exitCode = 0) := by
  refine ⟨?_, ?_, ?_, ?_, ?_⟩
  · intro e ha
    simp [runMain, ha]
  · intro uid ha hu
    simp [runMain, ha, hu]
  · intro uid e ha hu hs
    simp [runMain, ha, hu, hs]
  · intro uid ha hu hs
    simp [runMain, ha, hu, hs]
  · intro uid ids ps ha hu hs hr hc
    cases ids with
    | nil => simp [runMain, ha, hu, hs]
    | cons i is => simp [runMain, ha, hu, hs, hr, hc]

/-- Oracles for the run-fatal cases. -/
def envAuthExc : Env := { baseEnv with authenticate := .error "connection refused" }

/-- Authentication returning a falsy uid. -/
def envAuthFalse : Env := { baseEnv with authenticate := .ok (.vbool false) }

/-- Search failure. -/
def envSearchErr : Env := { baseEnv with searchPickings := fun _ _ => .error "fault" }

/-- Search finding nothing. -/
def envNoPickings : Env := { baseEnv with searchPickings := fun _ _ => .ok [] }

/-- Witness for C8: all five run outcomes at concrete oracles. -/
theorem C8_exit_codes_witness :
    runMain envAuthExc [1] 50 =
      ⟨[{ status := "error", message := "auth error: connection refused" }], [], 1⟩ ∧
    runMain envAuthFalse [1] 50 =
      ⟨[{ status := "error", message := "auth failed (no uid)" }], [], 1⟩ ∧
    runMain envSearchErr [1] 50 =
      ⟨[{ status := "error", message := "search error: fault" }], [], 1⟩ ∧
    runMain envNoPickings [1] 50 =
      ⟨[{ status := "skip", message := "no pickings found" }], [], 0⟩ ∧
    (runMain baseEnv [1] 50).exitCode = 0 := by
  refine ⟨?_, ?_, ?_, ?_, ?_⟩
  · exact (C8_exit_codes envAuthExc [1] 50).1 "connection refused" (by rfl)
  · exact (C8_exit_codes envAuthFalse [1] 50).2.1 (.vbool false) (by rfl) (by rfl)
  · exact (C8_exit_codes envSearchErr [1] 50).2.2.1 (.vint 2) "fault" (by rfl) (by rfl) (by rfl)
  · exact (C8_exit_codes envNoPickings [1] 50).2.2.2.1 (.vint 2) (by rfl) (by rfl) (by rfl)
  · exact (C8_exit_codes baseEnv [1] 50).2.2.2.2 (.vint 2) [11] [basePicking]
      (by rfl) (by rfl) (by rfl) (by rfl) (by rfl)

/-- pyBeq on wrapped ints is integer equality. -/
theorem pyBeq_vint (a b : Int) : pyBeq (.vint a) (.vint b) = (a == b) := by
  simp [pyBeq]

/-- Membership through the company allow-list condition. -/
theorem mem_of_any_vint (cids : List Int) (c : Int)
    (h : ((cids.map PyVal.vint).any fun x => pyBeq x (.vint c)) = true) : c ∈ cids := by
  induction cids with
  | nil => simp at h
  | cons a as ih =>
    rcases List.any_eq_true.mp h with ⟨x, hx, hbx⟩
    rcases List.mem_map.mp hx with ⟨b, hb, rfl⟩
    rw [pyBeq_vint] at hbx
    exact (beq_iff_eq.mp hbx) ▸ hb

/-- C9: every id the selection query returns comes from a record whose
shipment-link field is empty — so a candidate already linked to a shipment
is never re-selected — and that additionally has a related transfer with
milestone "Complete", a related transfer with state "sent", and a company
in the allow-list; the result is capped at the limit. -/
theorem C9_selection_filter (recs : List (Int × PickingSearchView)) (cids : List Int)
    (limit : Nat) :
    (∀ pid, pid ∈ selectPickings recs cids limit →
      ∃ v, (pid, v) ∈ recs ∧ v.tpl_shipment_ids = [] ∧
        v.transfer_milestones.contains "Complete" = true ∧
        v.transfer_states.contains "sent" = true ∧
        v.company_id ∈ cids) ∧
    (selectPickings recs cids limit).length ≤ limit := by
  constructor
  · intro pid hsel
    have hmem : pid ∈ (recs.filter
        (fun r => evalDomain r.2 (mainDomain cids))).map (fun r => r.1) :=
      List.take_subset limit _ hsel
    rcases List.mem_map.mp hmem with ⟨r, hr, rfl⟩
    rcases List.mem_filter.mp hr with ⟨hrm, hd⟩
    simp only [evalDomain, mainDomain, List.all_cons, List.all_nil, Bool.and_true,
      Bool.and_eq_true, evalCond] at hd
    obtain ⟨hms, hst, hsh, hco⟩ := hd
    exact ⟨r.2, hrm, List.isEmpty_iff.mp hsh, hms, hst, mem_of_any_vint cids r.2.company_id hco⟩
  · exact List.length_take_le limit _

/-- Witness for C9 at concrete records: a record with a linked shipment is
not selected, one without is. -/
theorem C9_selection_filter_witness :
    (∃ v, ((2 : Int), v) ∈
        [((1 : Int), PickingSearchView.mk ["Complete"] ["sent"] [8] 1),
         ((2 : Int), PickingSearchView.mk ["Complete"] ["sent"] [] 1)] ∧
      v.tpl_shipment_ids = [] ∧ v.transfer_milestones.contains "Complete" = true ∧
      v.transfer_states.contains "sent" = true ∧ v.company_id ∈ [(1 : Int)]) ∧
    selectPickings
      [((1 : Int), PickingSearchView.mk ["Complete"] ["sent"] [8] 1),
       ((2 : Int), PickingSearchView.mk ["Complete"] ["sent"] [] 1)] [1] 50 = [2] := by
  constructor
  · refine (C9_selection_filter
      [((1 : Int), PickingSearchView.mk ["Complete"] ["sent"] [8] 1),
       ((2 : Int), PickingSearchView.mk ["Complete"] ["sent"] [] 1)] [1] 50).1 2 ?_
    simp [selectPickings, evalDomain, mainDomain, evalCond, pyBeq]
  · simp [selectPickings, evalDomain, mainDomain, evalCond, pyBeq]

/-- A successful call-site outcome comes from a 2xx body whose extraction
succeeded. -/
theorem mf_get_tracking_ok_inv (c : MfCall) (res : MfResult)
    (h : mf_get_tracking c = .ok res) :
    ∃ body, c = .ok body ∧ mf_extract body = .ok res := by
  cases c with
  | httpError st e => simp [mf_get_tracking] at h
  | exc e => simp [mf_get_tracking] at h
  | ok body =>
    cases hex : mf_extract body with
    | error e => rw [mf_get_tracking, hex] at h; cases h
    | ok r =>
      rw [mf_get_tracking, hex] at h
      cases h
      exact ⟨body, rfl, hex⟩

/-- Any shipment-creation write recorded by the post-tracking steps
carries exactly the tracking result's fields: name is the tracking
number, tracking_url is the tracking url, and tpl_code is the carrier
name defaulted to "" when falsy. -/
theorem afterTracking_create_mem (env : Env) (pid : Int) (reference : PyVal)
    (region service_type : String) (t : Int) (res : MfResult) (vals : ShipmentVals)
    (h : WriteOp.createShipment vals ∈
      (afterTracking env pid reference region service_type t res).writes) :
    vals.name = res.tracking_number ∧ vals.tracking_url = res.tracking_url ∧
      vals.tpl_code = pyOr res.shipping_method (.vstr "") := by
  unfold afterTracking at h
  split at h
  · simp at h
  · split at h
    · simp at h
    · split at h
      · simp at h
      · split at h
        · simp at h
        · dsimp only at h
          split at h
          · simp at h
          · split at h
            · simp at h
              subst h
              exact ⟨rfl, rfl, rfl⟩
            · simp at h
              subst h
              exact ⟨rfl, rfl, rfl⟩

/-- Any shipment-creation write recorded by the per-candidate body lies in
the post-tracking steps, after a 2xx tracking response whose extraction
succeeded and passed the truthiness guard on tracking_url and
tracking_number. -/
theorem processPicking_create_inv (env : Env) (p : Picking) (vals : ShipmentVals)
    (h : WriteOp.createShipment vals ∈ (processPicking env p).writes) :
    ∃ region service_type t res body,
      env.mf region service_type (pickingReference p) = .ok body ∧
      mf_extract body = .ok res ∧
      truthy res.tracking_url = true ∧ truthy res.tracking_number = true ∧
      WriteOp.createShipment vals ∈
        (afterTracking env p.id (pickingReference p) region service_type t res).writes := by
  unfold processPicking at h
  dsimp only at h
  split at h
  · simp at h
  · split at h
    · simp at h
    · split at h
      · simp at h
      · split at h
        · simp at h
        · split at h
          · simp at h
          · split at h
            · simp at h
            · split at h
              · simp at h
              · split at h
                · split at h
                  · simp at h
                  · unfold trackingStage at h
                    split at h
                    · simp at h
                    · simp at h
                    · rename_i res heq
                      split at h
                      · simp at h
                      · rename_i hg
                        obtain ⟨body, hbody, hex⟩ := mf_get_tracking_ok_inv _ res heq
                        simp only [Bool.or_eq_true, not_or, Bool.not_eq_true,
                          Bool.not_eq_false] at hg
                        exact ⟨_, _, _, res, body, hbody, hex,
                          by simpa using hg.1, by simpa using hg.2, h⟩
                · simp at h

/-- A truthy string value is a non-empty string. -/
theorem truthy_vstr_ne (s : String) (h : truthy (.vstr s) = true) : s ≠ "" := by
  intro he
  subst he
  rw [truthy, show "".isEmpty = true from rfl] at h
  exact Bool.noConfusion h

/-- C10: every shipment record the pipeline creates has a non-empty name
equal to the tracking number and a non-empty tracking_url — creation is
reachable only past the guard that classifies an unset (falsy)
tracking_number or tracking_url as an error — and, provided the tracking
provider returns strings (or omits the fields) for the carrier values as
its schema documents, the shipment's tpl_code is always a string: the
carrier name when truthy, the empty string otherwise. -/
theorem C10_created_shipment_invariant (env : Env) (p : Picking) (vals : ShipmentVals)
    (hstr : ∀ region service_type reference body res,
      env.mf region service_type reference = .ok body → mf_extract body = .ok res →
      (res.tracking_number = .vnone ∨ ∃ s, res.tracking_number = .vstr s) ∧
      (res.tracking_url = .vnone ∨ ∃ s, res.tracking_url = .vstr s) ∧
      (res.shipping_method = .vnone ∨ ∃ s, res.shipping_method = .vstr s))
    (hmem : WriteOp.createShipment vals ∈ (processPicking env p).writes) :
    (∃ ns, vals.name = .vstr ns ∧ ns ≠ "") ∧
    (∃ us, vals.tracking_url = .vstr us ∧ us ≠ "") ∧
    (∃ cs, vals.tpl_code = .vstr cs) ∧
    (∃ body res, mf_extract body = .ok res ∧ vals.name = res.tracking_number ∧
      vals.tracking_url = res.tracking_url ∧
      vals.tpl_code = pyOr res.shipping_method (.vstr "") ∧
      (truthy res.shipping_method = false → vals.tpl_code = .vstr "")) := by
  obtain ⟨region, service_type, t, res, body, hmf, hex, htu, htn, hmem2⟩ :=
    processPicking_create_inv env p vals hmem
  obtain ⟨hname, hurl, hcode⟩ :=
    afterTracking_create_mem env p.id (pickingReference p) region service_type t res vals hmem2
  obtain ⟨hn, hu, hs⟩ := hstr region service_type (pickingReference p) body res hmf hex
  have hcodef : truthy res.shipping_method = false → vals.tpl_code = .vstr "" := by
    intro hf
    rw [hcode, pyOr, hf]
    simp
  refine ⟨?_, ?_, ?_, body, res, hex, hname, hurl, hcode, hcodef⟩
  · rcases hn with hv | ⟨s, hv⟩
    · rw [hv] at htn
      exact Bool.noConfusion htn
    · rw [hv] at htn
      exact ⟨s, by rw [hname, hv], truthy_vstr_ne s htn⟩
  · rcases hu with hv | ⟨s, hv⟩
    · rw [hv] at htu
      exact Bool.noConfusion htu
    · rw [hv] at htu
      exact ⟨s, by rw [hurl, hv], truthy_vstr_ne s htu⟩
  · rcases hs with hv | ⟨s, hv⟩
    · exact ⟨"", by rw [hcode, hv]; rfl⟩
    · by_cases htr : truthy (.vstr s) = true
      · exact ⟨s, by rw [hcode, hv, pyOr, htr]; simp⟩
      · exact ⟨"", by rw [hcode, hv, pyOr]; simp [htr]⟩

/-- Witness for C10: at the sample payload and healthy oracle, the single
created shipment satisfies the invariant. -/
theorem C10_created_shipment_invariant_witness :
    (∃ ns, (ShipmentVals.mk (.vstr "1ZE5E8142094546050")
        (.vstr "https://wwwapps.ups.com/tracking") (.vstr "UPS")
        (some "2025-08-12 14:23:00") [(.vint 42, 3)]).name = .vstr ns ∧ ns ≠ "") ∧
    (∃ us, (ShipmentVals.mk (.vstr "1ZE5E8142094546050")
        (.vstr "https://wwwapps.ups.com/tracking") (.vstr "UPS")
        (some "2025-08-12 14:23:00") [(.vint 42, 3)]).tracking_url = .vstr us ∧ us ≠ "") ∧
    (∃ cs, (ShipmentVals.mk (.vstr "1ZE5E8142094546050")
        (.vstr "https://wwwapps.ups.com/tracking") (.vstr "UPS")
        (some "2025-08-12 14:23:00") [(.vint 42, 3)]).tpl_code = .vstr cs) := by
  have h := C10_created_shipment_invariant baseEnv basePicking
    (ShipmentVals.mk (.vstr "1ZE5E8142094546050")
      (.vstr "https://wwwapps.ups.com/tracking") (.vstr "UPS")
      (some "2025-08-12 14:23:00") [(.vint 42, 3)])
    (by
      intro region service_type reference body res hmf hex
      have hb : body = samplePayload := by
        have := hmf
        rw [show baseEnv.mf region service_type reference = .ok samplePayload from rfl] at this
        cases this
        rfl
      subst hb
      rw [show mf_extract samplePayload = .ok
        ⟨.vstr "1ZE5E8142094546050", .vstr "https://wwwapps.ups.com/tracking", .vstr "UPS",
          some "2025-08-12 14:23:00"⟩ from rfl] at hex
      cases hex
      exact ⟨Or.inr ⟨_, rfl⟩, Or.inr ⟨_, rfl⟩, Or.inr ⟨_, rfl⟩⟩)
    (by
      rw [show (processPicking baseEnv basePicking).writes =
        [.queueDone 5,
         .createShipment (ShipmentVals.mk (.vstr "1ZE5E8142094546050")
           (.vstr "https://wwwapps.ups.com/tracking") (.vstr "UPS")
           (some "2025-08-12 14:23:00") [(.vint 42, 3)]),
         .linkShipment 11 77] from rfl]
      exact List.mem_cons_of_mem _ (List.mem_cons_self _ _))
  exact ⟨h.1, h.2.1, h.2.2.1⟩
